import Mathlib

/-!
Shallow embedding of the Sentinel metrics API (api/index.js, remote-source
variant) and verification of its specified properties.

JavaScript numbers are modelled exactly as rationals extended with NaN and
the two infinities (we use exact arithmetic in place of IEEE-754 doubles;
all values appearing in the program and the claims are exactly
representable).  Fields of the untrusted upstream JSON payload are modelled
as `JSVal`, which distinguishes numbers from non-number values (strings,
null, undefined/absent), matching the `typeof x === 'number'` checks in the
source.
-/

/-- A JavaScript number: a finite value (exact rational), NaN, or ±Infinity. -/
inductive JSNumber where
  | fin (q : ℚ)
  | nan
  | inf
  | negInf
deriving DecidableEq, Repr

/-- A JavaScript value as far as the metrics code inspects one:
a number, a string, `null`, or `undefined` (also the result of a failed
optional-chain access such as `vmMetrics?.cpu?.usage_percent`). -/
inductive JSVal where
  | num (n : JSNumber)
  | str (s : String)
  | null
  | undefined
deriving DecidableEq, Repr

/-- `typeof v === 'number'` (true also for NaN and the infinities). -/
def JSVal.isNumber : JSVal → Bool
  | .num _ => true
  | _ => false

def JSNumber.isNaN : JSNumber → Bool
  | .nan => true
  | _ => false

/-- JavaScript `a >= b`: false whenever either side is NaN, otherwise the
order of the extended real line. -/
def jsGe : JSNumber → JSNumber → Bool
  | .nan, _ => false
  | _, .nan => false
  | .inf, _ => true
  | _, .inf => false
  | .negInf, .negInf => true
  | .negInf, .fin _ => false
  | .fin _, .negInf => true
  | .fin a, .fin b => a ≥ b

/-- JavaScript `a < b`: false whenever either side is NaN, otherwise the
negation of `a >= b`. -/
def jsLt (a b : JSNumber) : Bool :=
  if a.isNaN || b.isNaN then false else !(jsGe a b)

/-- JavaScript multiplication on numbers (signed zero identified with zero). -/
def jsMul : JSNumber → JSNumber → JSNumber
  | .nan, _ => .nan
  | _, .nan => .nan
  | .inf, .inf => .inf
  | .inf, .negInf => .negInf
  | .negInf, .inf => .negInf
  | .negInf, .negInf => .inf
  | .inf, .fin b => if b = 0 then .nan else if b > 0 then .inf else .negInf
  | .fin a, .inf => if a = 0 then .nan else if a > 0 then .inf else .negInf
  | .negInf, .fin b => if b = 0 then .nan else if b > 0 then .negInf else .inf
  | .fin a, .negInf => if a = 0 then .nan else if a > 0 then .negInf else .inf
  | .fin a, .fin b => .fin (a * b)

/-- JavaScript division on numbers (signed zero identified with zero). -/
def jsDiv : JSNumber → JSNumber → JSNumber
  | .nan, _ => .nan
  | _, .nan => .nan
  | .inf, .inf => .nan
  | .inf, .negInf => .nan
  | .negInf, .inf => .nan
  | .negInf, .negInf => .nan
  | .inf, .fin b => if b < 0 then .negInf else .inf
  | .negInf, .fin b => if b < 0 then .inf else .negInf
  | .fin _, .inf => .fin 0
  | .fin _, .negInf => .fin 0
  | .fin a, .fin b =>
      if b = 0 then (if a = 0 then .nan else if a > 0 then .inf else .negInf)
      else .fin (a / b)

/-- Truncation toward zero, as JavaScript `%` uses for its implicit quotient. -/
def ratTrunc (q : ℚ) : ℤ := if 0 ≤ q then ⌊q⌋ else ⌈q⌉

/-- JavaScript remainder `a % b`: sign follows the dividend;
NaN when the dividend is infinite or the divisor is zero or either is NaN;
`a % ±Infinity = a` for finite `a`. -/
def jsMod : JSNumber → JSNumber → JSNumber
  | .nan, _ => .nan
  | _, .nan => .nan
  | .inf, _ => .nan
  | .negInf, _ => .nan
  | .fin a, .inf => .fin a
  | .fin a, .negInf => .fin a
  | .fin a, .fin b =>
      if b = 0 then .nan else .fin (a - b * (ratTrunc (a / b) : ℚ))

/-- JavaScript `Math.floor`. -/
def jsFloor : JSNumber → JSNumber
  | .nan => .nan
  | .inf => .inf
  | .negInf => .negInf
  | .fin q => .fin (⌊q⌋ : ℚ)

/-- JavaScript `Math.round` (half-way cases round toward +Infinity). -/
def jsRound : JSNumber → JSNumber
  | .nan => .nan
  | .inf => .inf
  | .negInf => .negInf
  | .fin q => .fin (⌊q + 1/2⌋ : ℚ)

/-- JavaScript number-to-string coercion, as used by the template literal in
`formatUptime`.  Every number reaching it in the program is an integer, NaN
or an infinity (it is applied only to `Math.floor` results), and on those
this model is exact; a non-integral rational is rendered via its reduced
fraction as a placeholder. -/
def jsNumToString (n : JSNumber) : String :=
  match n with
  | .nan => "NaN"
  | .inf => "Infinity"
  | .negInf => "-Infinity"
  | .fin q => if q.den = 1 then toString q.num else toString q

/-- Health status enumeration from src/types/metrics.ts. -/
inductive MetricStatus where
  | healthy
  | warning
  | critical
  | unknown
deriving DecidableEq, Repr

/-- api/index.js `getMetricStatus(percentage, criticalThreshold, warningThreshold)`:
`percentage >= criticalThreshold → critical`; else
`percentage >= warningThreshold → warning`; else `healthy`. -/
def getMetricStatus (percentage criticalThreshold warningThreshold : JSNumber) :
    MetricStatus :=
  if jsGe percentage criticalThreshold then .critical
  else if jsGe percentage warningThreshold then .warning
  else .healthy

/-- `getMetricStatus` at its default thresholds (critical = 90, warning = 75),
as every call site in the program invokes it. -/
def getMetricStatusD (percentage : JSNumber) : MetricStatus :=
  getMetricStatus percentage (.fin 90) (.fin 75)

/-- The em-dash placeholder string returned by `formatUptime` on invalid input. -/
def emDash : String := "—"

/-- api/index.js `formatUptime(seconds)`:
returns the placeholder when `typeof seconds !== 'number' || isNaN(seconds)
|| seconds < 0`, otherwise decomposes into days/hours/minutes with
`Math.floor` and the JavaScript `%` and `/` operators and renders
`` `${days}d ${hours}h ${minutes}m` ``. -/
def formatUptime (seconds : JSVal) : String :=
  match seconds with
  | .num n =>
      if n.isNaN || jsLt n (.fin 0) then emDash
      else
        let days := jsNumToString (jsFloor (jsDiv n (.fin 86400)))
        let hours := jsNumToString (jsFloor (jsDiv (jsMod n (.fin 86400)) (.fin 3600)))
        let minutes := jsNumToString (jsFloor (jsDiv (jsMod n (.fin 3600)) (.fin 60)))
        days ++ "d " ++ hours ++ "h " ++ minutes ++ "m"
  | _ => emDash

/-- The untrusted remote payload as the handler accesses it: the results of
the four optional-chain field reads `cpu.usage_percent`, `memory.used_percent`,
`disk.used_percent`, `uptime.seconds` (an absent object or field reads as
`undefined`). -/
structure RawVMMetrics where
  cpuUsagePercent : JSVal
  memoryUsedPercent : JSVal
  diskUsedPercent : JSVal
  uptimeSeconds : JSVal
deriving DecidableEq, Repr

/-- The module-level cache of api/index.js:
`let cachedMetrics = null; let cacheTimestamp = 0;` (millisecond clock). -/
structure CacheState where
  cachedMetrics : Option RawVMMetrics
  cacheTimestamp : ℤ
deriving DecidableEq, Repr

/-- `const CACHE_TTL_MS = 3000`. -/
def CACHE_TTL_MS : ℤ := 3000

/-- The environment's answer to one upstream `fetch(VM_METRICS_URL, ...)`:
either a parsed JSON body, or a failure (non-2xx status, the 5-second
timeout, or a network error — all of which throw in the source). -/
inductive UpstreamResult where
  | success (data : RawVMMetrics)
  | failure
deriving DecidableEq, Repr

/-- The observable outcome of one `fetchVMMetrics()` call: the value returned
or the error propagated (`Except.error`), the cache state afterwards, whether
an upstream fetch was issued, and whether the stale-cache warning was logged. -/
structure FetchOutcome where
  result : Except Unit RawVMMetrics
  state : CacheState
  issuedFetch : Bool
  loggedStaleWarning : Bool
deriving Repr

/-- api/index.js `fetchVMMetrics()` as a state transition: `st` is the cache
state at entry, `now` the value of `Date.now()`, `upstream` what the network
would answer if a fetch is issued.
If `cachedMetrics && (now - cacheTimestamp) < CACHE_TTL_MS`, the cached value
is returned with no fetch.  Otherwise a fetch is issued: on success the body
is cached (timestamp `now`) and returned; on failure the cached value is
returned with a warning if one exists, else the error propagates. -/
def fetchVMMetrics (st : CacheState) (now : ℤ) (upstream : UpstreamResult) :
    FetchOutcome :=
  match st.cachedMetrics with
  | some c =>
      if now - st.cacheTimestamp < CACHE_TTL_MS then
        ⟨.ok c, st, false, false⟩
      else
        match upstream with
        | .success d => ⟨.ok d, ⟨some d, now⟩, true, false⟩
        | .failure => ⟨.ok c, st, true, true⟩
  | none =>
      match upstream with
      | .success d => ⟨.ok d, ⟨some d, now⟩, true, false⟩
      | .failure => ⟨.error (), st, true, false⟩

/-- The shape of the `containers` field of the response. -/
structure ContainersOut where
  running : ℤ
  total : ℤ
  status : MetricStatus
deriving DecidableEq, Repr

/-- The result of one `execAsync` shell invocation: its stdout, or a thrown
error (container runtime absent, permission denied). -/
inductive ExecResult where
  | ok (stdout : String)
  | err
deriving DecidableEq, Repr

/-- The longest prefix of decimal digits. -/
def takeDigits : List Char → List Char
  | [] => []
  | c :: cs => if c.isDigit then c :: takeDigits cs else []

/-- Numeric value of a digit list read most-significant first. -/
def digitsVal (ds : List Char) : ℕ :=
  ds.foldl (fun acc c => acc * 10 + (c.toNat - 48)) 0

/-- ASCII whitespace as produced by the shell pipelines the program parses
(`wc -l` output: digits, spaces, a trailing newline). -/
def isWhitespaceChar (c : Char) : Bool :=
  c = ' ' || c = Char.ofNat 9 || c = Char.ofNat 10 || c = Char.ofNat 13

/-- Drop leading whitespace characters. -/
def dropLeadingWS : List Char → List Char
  | [] => []
  | c :: cs => if isWhitespaceChar c then dropLeadingWS cs else c :: cs

/-- JavaScript `s.trim()`: strip whitespace from both ends. -/
def jsTrim (s : String) : String :=
  String.mk ((dropLeadingWS ((dropLeadingWS s.toList).reverse)).reverse)

/-- JavaScript `parseInt(s, 10)` on an already-trimmed string: an optional
sign then a maximal run of decimal digits; `none` models NaN (no digits). -/
def parseIntJS (s : String) : Option ℤ :=
  match s.toList with
  | [] => none
  | c :: cs =>
      let signRest : ℤ × List Char :=
        if c = Char.ofNat 45 then (-1, cs)
        else if c = Char.ofNat 43 then (1, cs)
        else (1, c :: cs)
      let ds := takeDigits signRest.2
      if ds.isEmpty then none else some (signRest.1 * (digitsVal ds : ℤ))

/-- `parseInt(output.trim(), 10) || 0`: NaN (and 0 itself, which is falsy)
coerces to 0. -/
def parseIntOr0 (s : String) : ℤ := (parseIntJS (jsTrim s)).getD 0

/-- api/index.js `getContainerMetrics()`: runs `docker ps -q | wc -l` and
`docker ps -a -q | wc -l`; if either invocation throws, the catch block
returns `{running:0, total:0, status:'unknown'}`; otherwise each stdout is
parsed with `parseInt(..., 10) || 0` and the status is `healthy` when
`running === total`, else `warning`. -/
def getContainerMetrics (runningExec totalExec : ExecResult) : ContainersOut :=
  match runningExec, totalExec with
  | .ok runningOutput, .ok totalOutput =>
      let running := parseIntOr0 runningOutput
      let total := parseIntOr0 totalOutput
      ⟨running, total, if running = total then .healthy else .warning⟩
  | _, _ => ⟨0, 0, .unknown⟩

/-- `Math.round(x * 10) / 10`, the one-decimal rounding applied to each
percentage field in the handler. -/
def round1 (n : JSNumber) : JSNumber :=
  jsDiv (jsRound (jsMul n (.fin 10))) (.fin 10)

/-- The `typeof field === 'number' ? Math.round(field * 10) / 10 : null`
sanitization step of the handler (`none` models `null`). -/
def sanitizePercent (v : JSVal) : Option JSNumber :=
  match v with
  | .num n => some (round1 n)
  | _ => none

/-- The `typeof field === 'number' ? field : null` sanitization step for
`uptime.seconds` (no rounding). -/
def sanitizeUptime (v : JSVal) : Option JSNumber :=
  match v with
  | .num n => some n
  | _ => none

/-- The `cpu` field of the response body. -/
structure CPUOut where
  usage : JSNumber
  status : MetricStatus
deriving DecidableEq, Repr

/-- The `memory` and `disk` fields of the response body. -/
structure PercentOut where
  percentage : JSNumber
  status : MetricStatus
deriving DecidableEq, Repr

/-- The `uptime` field of the response body. -/
structure UptimeOut where
  seconds : JSNumber
  formatted : String
  status : MetricStatus
deriving DecidableEq, Repr

/-- The full `/api/metrics` response body (SystemMetrics shape);
`timestamp` is the ISO string from `new Date().toISOString()`. -/
structure SystemMetricsOut where
  cpu : CPUOut
  memory : PercentOut
  disk : PercentOut
  uptime : UptimeOut
  containers : ContainersOut
  timestamp : String
deriving DecidableEq, Repr

/-- The success path of the `/api/metrics` handler: sanitize each field of
the remote payload, then build the response record exactly as the source
does (null → 0 value and `unknown` status; otherwise the sanitized value and
its classified status; uptime status is `healthy` whenever the raw field was
a number). -/
def buildMetrics (vm : RawVMMetrics) (containers : ContainersOut)
    (timestamp : String) : SystemMetricsOut :=
  let cpuUsage := sanitizePercent vm.cpuUsagePercent
  let memUsed := sanitizePercent vm.memoryUsedPercent
  let diskUsed := sanitizePercent vm.diskUsedPercent
  let uptimeSeconds := sanitizeUptime vm.uptimeSeconds
  { cpu :=
      { usage := cpuUsage.getD (.fin 0)
        status := match cpuUsage with
          | some n => getMetricStatusD n
          | none => .unknown }
    memory :=
      { percentage := memUsed.getD (.fin 0)
        status := match memUsed with
          | some n => getMetricStatusD n
          | none => .unknown }
    disk :=
      { percentage := diskUsed.getD (.fin 0)
        status := match diskUsed with
          | some n => getMetricStatusD n
          | none => .unknown }
    uptime :=
      { seconds := uptimeSeconds.getD (.fin 0)
        formatted := formatUptime (match uptimeSeconds with
          | some n => .num n
          | none => .null)
        status := match uptimeSeconds with
          | some _ => .healthy
          | none => .unknown }
    containers := containers
    timestamp := timestamp }

/-- The catch-block fallback body of the `/api/metrics` handler: every metric
zeroed with status `unknown`. -/
def fallbackMetrics (timestamp : String) : SystemMetricsOut :=
  { cpu := ⟨.fin 0, .unknown⟩
    memory := ⟨.fin 0, .unknown⟩
    disk := ⟨.fin 0, .unknown⟩
    uptime := ⟨.fin 0, emDash, .unknown⟩
    containers := ⟨0, 0, .unknown⟩
    timestamp := timestamp }

/-- An HTTP response from the metrics route: status code and JSON body. -/
structure HttpResponse where
  status : ℕ
  body : SystemMetricsOut
deriving DecidableEq, Repr

/-- The `GET /api/metrics` handler: awaits `fetchVMMetrics()` (under cache
state `st`, clock `now`, network answer `upstream`) alongside
`getContainerMetrics()`; on success responds 200 with `buildMetrics`, and if
`fetchVMMetrics` throws, the catch block responds 200 with the all-unknown
fallback body (discarding the container result).  Returns the response and
the cache state afterwards. -/
def metricsHandler (st : CacheState) (now : ℤ) (upstream : UpstreamResult)
    (containers : ContainersOut) (timestamp : String) :
    HttpResponse × CacheState :=
  let o := fetchVMMetrics st now upstream
  match o.result with
  | .ok vm => (⟨200, buildMetrics vm containers timestamp⟩, o.state)
  | .error _ => (⟨200, fallbackMetrics timestamp⟩, o.state)

/-- Severity rank of the health bands (healthy < warning < critical);
`unknown` is orthogonal and ranked above only so the function is total. -/
def severity : MetricStatus → ℕ
  | .healthy => 0
  | .warning => 1
  | .critical => 2
  | .unknown => 3

/-- A sample cached payload used to instantiate the cache theorems. -/
def samplePayload : RawVMMetrics := ⟨.null, .null, .null, .null⟩

lemma jsNumToString_intCast (k : ℤ) : jsNumToString (.fin (k : ℚ)) = toString k := by
  simp [jsNumToString, Rat.den_intCast, Rat.num_intCast]

lemma ratTrunc_of_nonneg (q : ℚ) (h : 0 ≤ q) : ratTrunc q = ⌊q⌋ := by
  simp [ratTrunc, h]

/-- C1: with the default thresholds (critical = 90, warning = 75), the
classifier returns `critical` iff `p >= 90`, `warning` iff `75 <= p < 90`,
and `healthy` iff `p < 75`; being a Lean function over every input it is
pure and total with no failure mode. -/
theorem classify_default_bands (p : ℚ) :
    (getMetricStatusD (.fin p) = .critical ↔ 90 ≤ p) ∧
    (getMetricStatusD (.fin p) = .warning ↔ 75 ≤ p ∧ p < 90) ∧
    (getMetricStatusD (.fin p) = .healthy ↔ p < 75) := by
  unfold getMetricStatusD getMetricStatus jsGe
  by_cases h1 : (90 : ℚ) ≤ p <;> by_cases h2 : (75 : ℚ) ≤ p <;>
    simp [h1, h2, ge_iff_le] <;> linarith

/-- Witness for C1 at the concrete inputs 92, 80 and 50. -/
theorem classify_default_bands_witness :
    getMetricStatusD (.fin 92) = .critical ∧
    getMetricStatusD (.fin 80) = .warning ∧
    getMetricStatusD (.fin 50) = .healthy :=
  ⟨(classify_default_bands 92).1.mpr (by norm_num),
   (classify_default_bands 80).2.1.mpr (by norm_num),
   (classify_default_bands 50).2.2.mpr (by norm_num)⟩

/-- C10: the classifier is monotone for the severity order
healthy < warning < critical, and never returns `unknown` for any numeric
input (NaN and the infinities included). -/
theorem classify_monotone_never_unknown :
    (∀ p1 p2 : ℚ, p1 ≤ p2 →
      severity (getMetricStatusD (.fin p1)) ≤ severity (getMetricStatusD (.fin p2))) ∧
    (∀ p : JSNumber, getMetricStatusD p ≠ .unknown) := by
  constructor
  · intro p1 p2 h
    unfold getMetricStatusD getMetricStatus jsGe
    by_cases h1 : (90 : ℚ) ≤ p1 <;> by_cases h2 : (75 : ℚ) ≤ p1 <;>
      by_cases h3 : (90 : ℚ) ≤ p2 <;> by_cases h4 : (75 : ℚ) ≤ p2 <;>
      simp [h1, h2, h3, h4, ge_iff_le, severity] <;> linarith
  · intro p
    unfold getMetricStatusD getMetricStatus
    split
    · simp
    · split <;> simp

/-- Witness for C10 at the concrete pair 50 <= 95 and at NaN. -/
theorem classify_monotone_never_unknown_witness :
    severity (getMetricStatusD (.fin 50)) ≤ severity (getMetricStatusD (.fin 95)) ∧
    getMetricStatusD .nan ≠ .unknown :=
  ⟨classify_monotone_never_unknown.1 50 95 (by norm_num),
   classify_monotone_never_unknown.2 .nan⟩

/-- C7: `formatUptime` is total and never throws; for a non-negative finite
seconds count it renders `days + "d " + hours + "h " + minutes + "m"` with
`days = floor(s/86400)`, `hours = floor((s%86400)/3600)`,
`minutes = floor((s%3600)/60)`; for negative, NaN, or non-numeric input it
returns the em-dash placeholder. -/
theorem formatUptime_total_spec :
    (∀ q : ℚ, 0 ≤ q →
      formatUptime (.num (.fin q)) =
        toString ⌊q / 86400⌋ ++ "d " ++
        toString ⌊(q - 86400 * (⌊q / 86400⌋ : ℚ)) / 3600⌋ ++ "h " ++
        toString ⌊(q - 3600 * (⌊q / 3600⌋ : ℚ)) / 60⌋ ++ "m") ∧
    (∀ q : ℚ, q < 0 → formatUptime (.num (.fin q)) = emDash) ∧
    formatUptime (.num .nan) = emDash ∧
    (∀ v : JSVal, v.isNumber = false → formatUptime v = emDash) := by
  refine ⟨?_, ?_, ?_, ?_⟩
  · intro q hq
    have hlt : jsLt (.fin q) (.fin 0) = false := by
      simp [jsLt, jsGe, JSNumber.isNaN, hq]
    have hq1 : (0 : ℚ) ≤ q / 86400 := by positivity
    have hq2 : (0 : ℚ) ≤ q / 3600 := by positivity
    simp only [formatUptime, JSNumber.isNaN, hlt, Bool.false_or, if_neg, Bool.or_self]
    norm_num [jsDiv, jsMod, jsFloor, ratTrunc_of_nonneg _ hq1, ratTrunc_of_nonneg _ hq2,
      jsNumToString_intCast]
  · intro q hq
    have : jsLt (.fin q) (.fin 0) = true := by
      simp [jsLt, jsGe, JSNumber.isNaN]
      linarith
    simp [formatUptime, this]
  · simp [formatUptime, JSNumber.isNaN]
  · intro v hv
    cases v <;> simp_all [formatUptime, JSVal.isNumber]

/-- Witness for C7 at 184293 seconds, -5 seconds, and `null`. -/
theorem formatUptime_total_spec_witness :
    formatUptime (.num (.fin 184293)) = "2d 3h 11m" ∧
    formatUptime (.num (.fin (-5))) = emDash ∧
    formatUptime .null = emDash := by
  refine ⟨?_, formatUptime_total_spec.2.1 (-5) (by norm_num),
    formatUptime_total_spec.2.2.2 .null rfl⟩
  rw [formatUptime_total_spec.1 184293 (by norm_num)]
  norm_num
  rfl

lemma fetchVMMetrics_cached_result (st : CacheState) (t : ℤ) (e : UpstreamResult)
    (d : RawVMMetrics)
    (h : (fetchVMMetrics st t e).state.cachedMetrics = some d) :
    (fetchVMMetrics st t e).result = .ok d := by
  cases hc : st.cachedMetrics with
  | none =>
      cases e with
      | success dd =>
          unfold fetchVMMetrics at h ⊢
          simp [hc] at h ⊢
          exact h
      | failure =>
          unfold fetchVMMetrics at h
          simp [hc] at h
  | some c =>
      by_cases hf : t - st.cacheTimestamp < CACHE_TTL_MS
      · unfold fetchVMMetrics at h ⊢
        simp [hc, hf] at h ⊢
        exact h
      · cases e with
        | success dd =>
            unfold fetchVMMetrics at h ⊢
            simp [hc, hf] at h ⊢
            exact h
        | failure =>
            unfold fetchVMMetrics at h ⊢
            simp [hc, hf] at h ⊢
            exact h

lemma fetchVMMetrics_hit (st : CacheState) (t : ℤ) (e : UpstreamResult)
    (d : RawVMMetrics) (hc : st.cachedMetrics = some d)
    (hfresh : t - st.cacheTimestamp < CACHE_TTL_MS) :
    fetchVMMetrics st t e = ⟨.ok d, st, false, false⟩ := by
  unfold fetchVMMetrics
  simp [hc, hfresh]

/-- C5: for two consecutive `fetchVMMetrics` calls whose second happens while
the cache (as left by the first call) is within its TTL window, both calls
return the same cached data, the second issues no upstream fetch, and at most
one upstream fetch is issued across the pair. -/
theorem cache_idempotent_within_ttl (st : CacheState) (t1 t2 : ℤ)
    (e1 e2 : UpstreamResult) (d : RawVMMetrics)
    (hc : (fetchVMMetrics st t1 e1).state.cachedMetrics = some d)
    (httl : t2 - (fetchVMMetrics st t1 e1).state.cacheTimestamp < CACHE_TTL_MS) :
    (fetchVMMetrics st t1 e1).result = .ok d ∧
    (fetchVMMetrics (fetchVMMetrics st t1 e1).state t2 e2).result = .ok d ∧
    (fetchVMMetrics (fetchVMMetrics st t1 e1).state t2 e2).issuedFetch = false ∧
    ((if (fetchVMMetrics st t1 e1).issuedFetch then 1 else 0) +
      (if (fetchVMMetrics (fetchVMMetrics st t1 e1).state t2 e2).issuedFetch
        then 1 else 0) ≤ 1) := by
  have h1 := fetchVMMetrics_cached_result st t1 e1 d hc
  have h2 := fetchVMMetrics_hit (fetchVMMetrics st t1 e1).state t2 e2 d hc httl
  refine ⟨h1, by simp [h2], by simp [h2], ?_⟩
  simp [h2]
  split <;> simp

/-- Witness for C5: a cold cache filled at time 0, read again at time 1000. -/
theorem cache_idempotent_within_ttl_witness :
    (fetchVMMetrics ⟨none, 0⟩ 0 (.success samplePayload)).result = .ok samplePayload ∧
    (fetchVMMetrics (fetchVMMetrics ⟨none, 0⟩ 0 (.success samplePayload)).state
      1000 .failure).result = .ok samplePayload ∧
    (fetchVMMetrics (fetchVMMetrics ⟨none, 0⟩ 0 (.success samplePayload)).state
      1000 .failure).issuedFetch = false ∧
    ((if (fetchVMMetrics ⟨none, 0⟩ 0 (.success samplePayload)).issuedFetch
        then 1 else 0) +
      (if (fetchVMMetrics (fetchVMMetrics ⟨none, 0⟩ 0 (.success samplePayload)).state
        1000 .failure).issuedFetch then 1 else 0) ≤ 1) :=
  cache_idempotent_within_ttl ⟨none, 0⟩ 0 1000 (.success samplePayload) .failure
    samplePayload rfl (by decide)

/-- C6: if an upstream fetch is attempted (the cache is stale) and fails
while a previously fetched value exists — even one older than the TTL — the
stale cached value is returned instead of an error and the warning is
logged. -/
theorem cache_stale_on_error (st : CacheState) (t : ℤ) (c : RawVMMetrics)
    (hc : st.cachedMetrics = some c)
    (hstale : ¬ t - st.cacheTimestamp < CACHE_TTL_MS) :
    (fetchVMMetrics st t .failure).result = .ok c ∧
    (fetchVMMetrics st t .failure).loggedStaleWarning = true := by
  unfold fetchVMMetrics
  simp [hc, hstale]

/-- Witness for C6: a value cached at time 0 is served at time 9000 when the
upstream fetch fails. -/
theorem cache_stale_on_error_witness :
    (fetchVMMetrics ⟨some samplePayload, 0⟩ 9000 .failure).result = .ok samplePayload ∧
    (fetchVMMetrics ⟨some samplePayload, 0⟩ 9000 .failure).loggedStaleWarning = true :=
  cache_stale_on_error ⟨some samplePayload, 0⟩ 9000 samplePayload rfl (by decide)

/-- C9: a failed upstream fetch leaves `cachedMetrics` and `cacheTimestamp`
unchanged; any call made after TTL expiry issues an upstream fetch (no
backoff); and the cache state changes only when a fetch succeeds, in which
case it holds the fetched data stamped with the call time. -/
theorem cache_unchanged_on_failure (st : CacheState) (now later : ℤ)
    (e : UpstreamResult) :
    (fetchVMMetrics st now .failure).state = st ∧
    (¬ later - st.cacheTimestamp < CACHE_TTL_MS →
      (fetchVMMetrics st later e).issuedFetch = true) ∧
    ((fetchVMMetrics st now e).state ≠ st →
      ∃ d, e = .success d ∧ (fetchVMMetrics st now e).state = ⟨some d, now⟩) := by
  refine ⟨?_, ?_, ?_⟩
  · unfold fetchVMMetrics
    cases hc : st.cachedMetrics <;> simp [hc] <;> split <;> simp
  · intro hstale
    unfold fetchVMMetrics
    cases hc : st.cachedMetrics <;> cases e <;> simp [hc, hstale]
  · intro hne
    cases hc : st.cachedMetrics with
    | none =>
        cases e with
        | success d =>
            refine ⟨d, rfl, ?_⟩
            unfold fetchVMMetrics
            simp [hc]
        | failure =>
            exfalso
            apply hne
            unfold fetchVMMetrics
            simp [hc]
    | some c =>
        by_cases hf : now - st.cacheTimestamp < CACHE_TTL_MS
        · exfalso
          apply hne
          unfold fetchVMMetrics
          simp [hc, hf]
        · cases e with
          | success d =>
              refine ⟨d, rfl, ?_⟩
              unfold fetchVMMetrics
              simp [hc, hf]
          | failure =>
              exfalso
              apply hne
              unfold fetchVMMetrics
              simp [hc, hf]

/-- Witness for C9: failure at time 5000 leaves the cache from time 0 intact,
a call at time 4000 (past TTL) issues a fetch, and a success at time 5000 is
the one way the state changes. -/
theorem cache_unchanged_on_failure_witness :
    (fetchVMMetrics ⟨some samplePayload, 0⟩ 5000 .failure).state =
      ⟨some samplePayload, 0⟩ ∧
    (fetchVMMetrics ⟨some samplePayload, 0⟩ 4000 .failure).issuedFetch = true ∧
    (fetchVMMetrics ⟨some samplePayload, 0⟩ 5000 (.success samplePayload)).state =
      ⟨some samplePayload, 5000⟩ := by
  refine ⟨(cache_unchanged_on_failure ⟨some samplePayload, 0⟩ 5000 4000 .failure).1,
    (cache_unchanged_on_failure ⟨some samplePayload, 0⟩ 4000 4000 .failure).2.1
      (by decide), ?_⟩
  obtain ⟨d, hd, hstate⟩ :=
    (cache_unchanged_on_failure ⟨some samplePayload, 0⟩ 5000 5000
      (.success samplePayload)).2.2 (by decide)
  cases hd
  exact hstate

/-- C2: on a cold start (empty cache) with a failing upstream, the failure
propagates out of `fetchVMMetrics` to the handler, which still responds with
HTTP 200 and a fully populated body: every metric has status `unknown` and a
zero or placeholder value, whatever the container probe produced. -/
theorem coldstart_fail_closed (st : CacheState) (now : ℤ) (cs : ContainersOut)
    (ts : String) (h : st.cachedMetrics = none) :
    (fetchVMMetrics st now .failure).result = .error () ∧
    (metricsHandler st now .failure cs ts).1.status = 200 ∧
    (metricsHandler st now .failure cs ts).1.body.cpu = ⟨.fin 0, .unknown⟩ ∧
    (metricsHandler st now .failure cs ts).1.body.memory = ⟨.fin 0, .unknown⟩ ∧
    (metricsHandler st now .failure cs ts).1.body.disk = ⟨.fin 0, .unknown⟩ ∧
    (metricsHandler st now .failure cs ts).1.body.uptime = ⟨.fin 0, emDash, .unknown⟩ ∧
    (metricsHandler st now .failure cs ts).1.body.containers = ⟨0, 0, .unknown⟩ ∧
    (metricsHandler st now .failure cs ts).1.body.timestamp = ts := by
  have hf : fetchVMMetrics st now .failure = ⟨.error (), st, true, false⟩ := by
    unfold fetchVMMetrics
    simp [h]
  simp [metricsHandler, hf, fallbackMetrics]

/-- Witness for C2 at an empty cache, a healthy container probe result, and a
concrete timestamp. -/
theorem coldstart_fail_closed_witness :
    (fetchVMMetrics ⟨none, 7⟩ 123 .failure).result = .error () ∧
    (metricsHandler ⟨none, 7⟩ 123 .failure ⟨3, 4, .healthy⟩ "W").1.status = 200 ∧
    (metricsHandler ⟨none, 7⟩ 123 .failure ⟨3, 4, .healthy⟩ "W").1.body.cpu =
      ⟨.fin 0, .unknown⟩ ∧
    (metricsHandler ⟨none, 7⟩ 123 .failure ⟨3, 4, .healthy⟩ "W").1.body.memory =
      ⟨.fin 0, .unknown⟩ ∧
    (metricsHandler ⟨none, 7⟩ 123 .failure ⟨3, 4, .healthy⟩ "W").1.body.disk =
      ⟨.fin 0, .unknown⟩ ∧
    (metricsHandler ⟨none, 7⟩ 123 .failure ⟨3, 4, .healthy⟩ "W").1.body.uptime =
      ⟨.fin 0, emDash, .unknown⟩ ∧
    (metricsHandler ⟨none, 7⟩ 123 .failure ⟨3, 4, .healthy⟩ "W").1.body.containers =
      ⟨0, 0, .unknown⟩ ∧
    (metricsHandler ⟨none, 7⟩ 123 .failure ⟨3, 4, .healthy⟩ "W").1.body.timestamp =
      "W" :=
  coldstart_fail_closed ⟨none, 7⟩ 123 ⟨3, 4, .healthy⟩ "W" rfl

/-- C3 counterexample: a payload whose `cpu.usage_percent` is NaN passes the
`typeof === 'number'` check, so the response carries `usage = NaN` with
status `healthy` — not the `usage = 0`, status `unknown` the claim requires
for a non-finite number. -/
theorem nan_passes_validation :
    (buildMetrics ⟨.num .nan, .num (.fin 50), .num (.fin 50), .num (.fin 100)⟩
        ⟨1, 1, .healthy⟩ "T").cpu = ⟨.nan, .healthy⟩ ∧
    (CPUOut.mk .nan .healthy ≠ ⟨.fin 0, .unknown⟩) := by
  constructor
  · rfl
  · decide

/-- C3 amended: each payload field is validated only to be of JavaScript
number type; a non-number field yields value 0 and status `unknown`, while
any number — NaN and the infinities included — is used after the one-decimal
rounding `Math.round(x*10)/10` (uptime is passed through unrounded). -/
theorem sanitize_typeof_only (vm : RawVMMetrics) (cs : ContainersOut) (ts : String) :
    (vm.cpuUsagePercent.isNumber = false →
      (buildMetrics vm cs ts).cpu = ⟨.fin 0, .unknown⟩) ∧
    (∀ n, vm.cpuUsagePercent = .num n →
      (buildMetrics vm cs ts).cpu = ⟨round1 n, getMetricStatusD (round1 n)⟩) ∧
    (vm.memoryUsedPercent.isNumber = false →
      (buildMetrics vm cs ts).memory = ⟨.fin 0, .unknown⟩) ∧
    (∀ n, vm.memoryUsedPercent = .num n →
      (buildMetrics vm cs ts).memory = ⟨round1 n, getMetricStatusD (round1 n)⟩) ∧
    (vm.diskUsedPercent.isNumber = false →
      (buildMetrics vm cs ts).disk = ⟨.fin 0, .unknown⟩) ∧
    (∀ n, vm.diskUsedPercent = .num n →
      (buildMetrics vm cs ts).disk = ⟨round1 n, getMetricStatusD (round1 n)⟩) ∧
    (vm.uptimeSeconds.isNumber = false →
      (buildMetrics vm cs ts).uptime = ⟨.fin 0, emDash, .unknown⟩) ∧
    (∀ n, vm.uptimeSeconds = .num n →
      (buildMetrics vm cs ts).uptime = ⟨n, formatUptime (.num n), .healthy⟩) ∧
    (∀ q : ℚ, round1 (.fin q) = .fin ((⌊q * 10 + 1/2⌋ : ℚ) / 10)) := by
  refine ⟨?_, ?_, ?_, ?_, ?_, ?_, ?_, ?_, ?_⟩
  · intro h
    cases hv : vm.cpuUsagePercent <;>
      simp_all [buildMetrics, sanitizePercent, JSVal.isNumber]
  · intro n hn
    simp [buildMetrics, sanitizePercent, hn]
  · intro h
    cases hv : vm.memoryUsedPercent <;>
      simp_all [buildMetrics, sanitizePercent, JSVal.isNumber]
  · intro n hn
    simp [buildMetrics, sanitizePercent, hn]
  · intro h
    cases hv : vm.diskUsedPercent <;>
      simp_all [buildMetrics, sanitizePercent, JSVal.isNumber]
  · intro n hn
    simp [buildMetrics, sanitizePercent, hn]
  · intro h
    cases hv : vm.uptimeSeconds <;>
      simp_all [buildMetrics, sanitizeUptime, JSVal.isNumber, formatUptime]
  · intro n hn
    simp [buildMetrics, sanitizeUptime, hn]
  · intro q
    norm_num [round1, jsMul, jsRound, jsDiv]

/-- Witness for C3 amended: a payload with a string cpu field, a numeric
memory field, a null disk field and an undefined uptime field. -/
theorem sanitize_typeof_only_witness :
    (buildMetrics ⟨.str "x", .num (.fin 50), .null, .undefined⟩
      ⟨1, 2, .warning⟩ "W").cpu = ⟨.fin 0, .unknown⟩ ∧
    (buildMetrics ⟨.str "x", .num (.fin 50), .null, .undefined⟩
      ⟨1, 2, .warning⟩ "W").memory =
        ⟨round1 (.fin 50), getMetricStatusD (round1 (.fin 50))⟩ ∧
    (buildMetrics ⟨.str "x", .num (.fin 50), .null, .undefined⟩
      ⟨1, 2, .warning⟩ "W").disk = ⟨.fin 0, .unknown⟩ ∧
    (buildMetrics ⟨.str "x", .num (.fin 50), .null, .undefined⟩
      ⟨1, 2, .warning⟩ "W").uptime = ⟨.fin 0, emDash, .unknown⟩ :=
  ⟨(sanitize_typeof_only ⟨.str "x", .num (.fin 50), .null, .undefined⟩
      ⟨1, 2, .warning⟩ "W").1 rfl,
   (sanitize_typeof_only ⟨.str "x", .num (.fin 50), .null, .undefined⟩
      ⟨1, 2, .warning⟩ "W").2.2.2.1 (.fin 50) rfl,
   (sanitize_typeof_only ⟨.str "x", .num (.fin 50), .null, .undefined⟩
      ⟨1, 2, .warning⟩ "W").2.2.2.2.1 rfl,
   (sanitize_typeof_only ⟨.str "x", .num (.fin 50), .null, .undefined⟩
      ⟨1, 2, .warning⟩ "W").2.2.2.2.2.2.1 rfl⟩

/-- C4 counterexample: when both count outputs are unparseable but the shell
invocations themselves succeed, nothing throws, `parseInt || 0` coerces both
counts to 0, and the status computed is `healthy` — not the claimed
`unknown`. -/
theorem containers_parse_failure_not_unknown :
    getContainerMetrics (.ok "garbage") (.ok "garbage") = ⟨0, 0, .healthy⟩ ∧
    (ContainersOut.mk 0 0 .healthy ≠ ⟨0, 0, .unknown⟩) := by
  constructor
  · decide
  · decide

/-- C4 amended: `getContainerMetrics` never raises; a thrown shell error
(runtime absent, permission denied) yields `{running:0, total:0,
status:'unknown'}`, while a parse failure of a count output is coerced to 0
by `parseInt(...) || 0` and the status is computed as healthy/warning from
the coerced counts. -/
theorem containers_failure_modes (re te : ExecResult) :
    ((re = .err ∨ te = .err) → getContainerMetrics re te = ⟨0, 0, .unknown⟩) ∧
    (∀ r t, re = .ok r → te = .ok t →
      getContainerMetrics re te =
        ⟨parseIntOr0 r, parseIntOr0 t,
         if parseIntOr0 r = parseIntOr0 t then .healthy else .warning⟩) := by
  constructor
  · intro h
    cases re <;> cases te <;> simp_all [getContainerMetrics]
  · intro r t hr ht
    subst hr
    subst ht
    simp [getContainerMetrics]

/-- Witness for C4 amended: a thrown invocation, and two parsed outputs. -/
theorem containers_failure_modes_witness :
    getContainerMetrics .err (.ok "3") = ⟨0, 0, .unknown⟩ ∧
    getContainerMetrics (.ok "12\n") (.ok "15\n") =
      ⟨parseIntOr0 "12\n", parseIntOr0 "15\n",
       if parseIntOr0 "12\n" = parseIntOr0 "15\n" then .healthy else .warning⟩ :=
  ⟨(containers_failure_modes .err (.ok "3")).1 (Or.inl rfl),
   (containers_failure_modes (.ok "12\n") (.ok "15\n")).2 "12\n" "15\n" rfl rfl⟩

/-- C8: end-to-end example — the specified remote payload together with
container counts 12/15 yields cpu 12.4 healthy, memory 57.1 healthy, disk
63.8 healthy, uptime "2d 3h 11m" healthy, containers {12, 15, warning}. -/
theorem metrics_end_to_end_example :
    metricsHandler ⟨none, 0⟩ 0
      (.success ⟨.num (.fin (124/10)), .num (.fin (571/10)),
        .num (.fin (638/10)), .num (.fin 184293)⟩)
      (getContainerMetrics (.ok "12\n") (.ok "15\n")) "TS" =
    (⟨200,
      { cpu := ⟨.fin (124/10), .healthy⟩
        memory := ⟨.fin (571/10), .healthy⟩
        disk := ⟨.fin (638/10), .healthy⟩
        uptime := ⟨.fin 184293, "2d 3h 11m", .healthy⟩
        containers := ⟨12, 15, .warning⟩
        timestamp := "TS" }⟩,
     ⟨some ⟨.num (.fin (124/10)), .num (.fin (571/10)),
        .num (.fin (638/10)), .num (.fin 184293)⟩, 0⟩) := by
  have h1 : round1 (.fin (124/10)) = .fin (124/10) := by
    norm_num [round1, jsMul, jsRound, jsDiv]
  have h2 : round1 (.fin (571/10)) = .fin (571/10) := by
    norm_num [round1, jsMul, jsRound, jsDiv]
  have h3 : round1 (.fin (638/10)) = .fin (638/10) := by
    norm_num [round1, jsMul, jsRound, jsDiv]
  have s1 : getMetricStatusD (.fin (124/10)) = .healthy := by
    norm_num [getMetricStatusD, getMetricStatus, jsGe]
  have s2 : getMetricStatusD (.fin (571/10)) = .healthy := by
    norm_num [getMetricStatusD, getMetricStatus, jsGe]
  have s3 : getMetricStatusD (.fin (638/10)) = .healthy := by
    norm_num [getMetricStatusD, getMetricStatus, jsGe]
  have hu : formatUptime (.num (.fin 184293)) = "2d 3h 11m" := by
    norm_num [formatUptime, JSNumber.isNaN, jsLt, jsGe, jsDiv, jsMod, jsFloor, ratTrunc,
      jsNumToString]
    rfl
  have hcont : getContainerMetrics (.ok "12\n") (.ok "15\n") = ⟨12, 15, .warning⟩ := by
    decide
  rw [hcont]
  unfold metricsHandler fetchVMMetrics
  simp [buildMetrics, sanitizePercent, sanitizeUptime, h1, h2, h3, s1, s2, s3, hu]
